import Mathlib

set_option linter.unusedVariables false

/-! Shallow embedding of the `Server` class of the repository
(src/types/index.d.ts, inlined `Server.ts` module, lines 348 to 531).
Each Server method and each routed-event listener registered in
`_registerEvents` is embedded as a pure function from a `ServerState` to
a new state together with the public events emitted, the native commands
issued and the callback invocations performed, in program order. -/

/-- Address record returned by `Server.address()`:
`{ address, port, family }`. -/
structure AddressInfo where
  address : String
  port : Nat
  family : String
deriving DecidableEq

/-- Payload carried under `evt.connection` by the routed native
`listening` event: fields `localAddress`, `localPort`, `localFamily`. -/
structure ListeningConnection where
  localAddress : String
  localPort : Nat
  localFamily : String
deriving DecidableEq

/-- Routed native `listening` event: `{ id, connection }`. -/
structure ListeningEvt where
  id : Nat
  connection : ListeningConnection
deriving DecidableEq

/-- Routed native `error` event: `{ id, error }`. -/
structure ErrorEvt where
  id : Nat
  error : String
deriving DecidableEq

/-- `NativeConnectionInfo` carried by the routed native `connection`
event, with the two fields used by the commented-out lines of
`Server._buildSocket` (`info.id` and `info.connection`). -/
structure NativeConnectionInfo where
  id : Nat
  connection : ListeningConnection
deriving DecidableEq

/-- Routed native `connection` event: `{ id, info }`. -/
structure ConnectionEvt where
  id : Nat
  info : NativeConnectionInfo
deriving DecidableEq

/-- Modelled from the spec: the `Socket` class (the file `./Socket`
imported by the Server module is not under src/). Per spec section 4.3 a
newly constructed Socket is Unconnected with no address metadata; the
`_setId` and `_setConnected` calls would populate `sockId` and
`connInfo`. -/
structure SocketModel where
  sockId : Option Nat
  connInfo : Option ListeningConnection
deriving DecidableEq

/-- Modelled from the spec: `new Socket()` yields an Unconnected socket
with no id confirmed and no connection metadata. -/
def SocketModel.new : SocketModel :=
  { sockId := none, connInfo := none }

/-- Public notifications a Server can emit: the EventEmitter events
`listening`, `connection`, `error` and `close`. -/
inductive PubEvent where
  | listening : PubEvent
  | connection : SocketModel → PubEvent
  | errorEv : String → PubEvent
  | close : PubEvent
deriving DecidableEq

/-- Options argument of `Server.listen`:
`{ port, host?, reuseAddress? }`. -/
structure ListenOptions where
  port : Nat
  host : Option String
  reuseAddress : Option Bool
deriving DecidableEq

/-- Fire-and-forget commands issued to the native sink
(`Sockets.listen(id, options)` and `Sockets.close(id)`). -/
inductive NativeCmd where
  | listenCmd : Nat → ListenOptions → NativeCmd
  | closeCmd : Nat → NativeCmd
deriving DecidableEq

/-- Callback invocations observable by the caller: the `listen` user
callback, a `close` callback with its optional error message, and the
`getConnections` callback with its `(err, count)` arguments. -/
inductive CbCall where
  | listenCb : CbCall
  | closeCb : Option String → CbCall
  | getConnectionsCb : Option String → Nat → CbCall
deriving DecidableEq

/-- State of one `Server` instance. The listeners the class arms on
itself are represented explicitly: `pendingListenCbs` counts the
`once("listening")` handlers armed by `listen` (each sets
`listening = true` and invokes the user callback), and `pendingCloseCbs`
counts the `once("close", callback)` handlers armed by `close`. The
constructor-armed `on("close", _setDisconnected)` listener is part of
`ServerState.emitClose`. Accepted sockets held in `_connections` are
tracked by distinct tokens drawn from `nextSocketToken`. -/
structure ServerState where
  id : Nat
  connections : List Nat
  localAddress : Option String
  localPort : Option Nat
  localFamily : Option String
  listening : Bool
  pendingListenCbs : Nat
  pendingCloseCbs : Nat
  nextSocketToken : Nat
deriving DecidableEq

/-- The `Server` constructor: empty connection set, all address metadata
undefined, not listening, no armed handlers. -/
def ServerState.new (id : Nat) : ServerState :=
  { id := id, connections := [], localAddress := none, localPort := none,
    localFamily := none, listening := false, pendingListenCbs := 0,
    pendingCloseCbs := 0, nextSocketToken := 0 }

/-- JavaScript truthiness of the optional string field `_localAddress`:
`undefined` and the empty string are falsy. -/
def strTruthy : Option String → Bool
  | none => false
  | some a => a ≠ ""

/-- Effect of `this.emit("close")`: the constructor-armed
`_setDisconnected` listener clears the address metadata, then every
`once("close")` callback armed by `close` fires with no error argument. -/
def ServerState.emitClose (s : ServerState) : ServerState × List CbCall :=
  ({ s with localAddress := none, localPort := none, localFamily := none,
            pendingCloseCbs := 0 },
   List.replicate s.pendingCloseCbs (CbCall.closeCb none))

/-- Result of running one Server method or routed-event handler. -/
structure OpResult where
  state : ServerState
  events : List PubEvent
  cmds : List NativeCmd
  cbs : List CbCall
deriving DecidableEq

/-- Result of `Server.listen`: `thrown` is the synchronously thrown
error, if any, and `optionsAfter` is the caller-supplied options object
as it stands after the call returns. -/
structure ListenResult where
  thrown : Option String
  state : ServerState
  cmds : List NativeCmd
  optionsAfter : ListenOptions
deriving DecidableEq

/-- The `||` default in `gotOptions.host = gotOptions.host || "0.0.0.0"`:
an absent or empty host is replaced by the wildcard address. -/
def jsOrDefault (h : Option String) (d : String) : String :=
  match h with
  | none => d
  | some v => if v = "" then d else v

/-- Embeds `Server.listen` (src/types/index.d.ts lines 402 to 416).
Throws ERR_SERVER_ALREADY_LISTEN when `_localAddress` is not undefined;
otherwise spreads the options into the copy `gotOptions`, defaults `host`
on that copy, arms the `once("listening")` handler that will set
`listening = true` and invoke the user callback, and issues the native
listen command with the copy. The caller object is untouched, so
`optionsAfter` is the original options value. -/
def Server.listen (s : ServerState) (options : ListenOptions) : ListenResult :=
  if s.localAddress ≠ none then
    { thrown := some "ERR_SERVER_ALREADY_LISTEN", state := s, cmds := [],
      optionsAfter := options }
  else
    { thrown := none,
      state := { s with pendingListenCbs := s.pendingListenCbs + 1 },
      cmds := [NativeCmd.listenCmd s.id
        { options with host := some (jsOrDefault options.host "0.0.0.0") }],
      optionsAfter := options }

/-- Embeds `Server.getConnections` (lines 423 to 426): invokes the
callback once, synchronously, with `(null, this._connections.size)`,
touching nothing else. -/
def Server.getConnections (s : ServerState) : OpResult :=
  { state := s, events := [], cmds := [],
    cbs := [CbCall.getConnectionsCb none s.connections.length] }

/-- Embeds `Server.close` (lines 434 to 443). When `_localAddress` is
falsy the callback is invoked synchronously with ERR_SERVER_NOT_RUNNING
and nothing else happens; otherwise the callback is armed as a
`once("close")` listener, `listening` is set to false and the native
close command is issued. No `close` event is emitted by this method. -/
def Server.close (s : ServerState) (hasCallback : Bool) : OpResult :=
  if strTruthy s.localAddress = false then
    { state := s, events := [], cmds := [],
      cbs := if hasCallback then [CbCall.closeCb (some "ERR_SERVER_NOT_RUNNING")] else [] }
  else
    { state := { s with
        pendingCloseCbs := s.pendingCloseCbs + (if hasCallback then 1 else 0),
        listening := false },
      events := [], cmds := [NativeCmd.closeCmd s.id], cbs := [] }

/-- Embeds `Server.address` (lines 450 to 460): null when
`_localAddress` is falsy or the family or port is undefined, otherwise
the `{ address, port, family }` record. -/
def Server.address (s : ServerState) : Option AddressInfo :=
  match s.localAddress, s.localPort, s.localFamily with
  | some a, some p, some f =>
      if a = "" then none else some { address := a, port := p, family := f }
  | _, _, _ => none

/-- Embeds `Server.destroy` (lines 476 to 482): emits the `close` event
unconditionally, which runs `_setDisconnected` and any armed close
callbacks. The removal of the native subscription handles has no effect
on the Server fields and is outside this routed-event model. -/
def Server.destroy (s : ServerState) : OpResult :=
  { state := s.emitClose.1, events := [PubEvent.close], cmds := [],
    cbs := s.emitClose.2 }

/-- A routed event whose id does not match returns before doing
anything. -/
def noopResult (s : ServerState) : OpResult :=
  { state := s, events := [], cmds := [], cbs := [] }

/-- Embeds the `listening` listener of `Server._registerEvents`
(lines 485 to 491): on id match, copy the bound-address metadata from
`evt.connection`, then emit the public `listening` event, which fires
every `once("listening")` handler armed by `listen`; each of those sets
`listening = true` and invokes its user callback, and all are consumed. -/
def Server.handleListening (s : ServerState) (evt : ListeningEvt) : OpResult :=
  if evt.id = s.id then
    let s1 : ServerState := { s with
      localAddress := some evt.connection.localAddress,
      localPort := some evt.connection.localPort,
      localFamily := some evt.connection.localFamily }
    { state := { s1 with
        listening := if s1.pendingListenCbs ≠ 0 then true else s1.listening,
        pendingListenCbs := 0 },
      events := [PubEvent.listening], cmds := [],
      cbs := List.replicate s1.pendingListenCbs CbCall.listenCb }
  else noopResult s

/-- Embeds the `error` listener of `Server._registerEvents`
(lines 493 to 497): on id match, run `this.close()` with no callback,
then emit the public `error` event carrying `evt.error`. -/
def Server.handleError (s : ServerState) (evt : ErrorEvt) : OpResult :=
  if evt.id = s.id then
    let c := Server.close s false
    { state := c.state, events := c.events ++ [PubEvent.errorEv evt.error],
      cmds := c.cmds, cbs := c.cbs }
  else noopResult s

/-- Embeds `Server._buildSocket` (lines 522 to 528): `new Socket()` with
the `_setId` and `_setConnected` calls commented out, so `info` is unused
apart from a debug log. -/
def Server.buildSocket (info : NativeConnectionInfo) : SocketModel :=
  SocketModel.new

/-- Embeds the `connection` listener of `Server._registerEvents`
(lines 499 to 513): on id match, build the new Socket, arm its close
handler (embedded as `Server.socketClose`), add it to the connection set
and emit the public `connection` event carrying the new Socket. The
accepted socket is tracked by the fresh token `s.nextSocketToken`. -/
def Server.handleConnection (s : ServerState) (evt : ConnectionEvt) : OpResult :=
  if evt.id = s.id then
    { state := { s with
        connections := s.connections ++ [s.nextSocketToken],
        nextSocketToken := s.nextSocketToken + 1 },
      events := [PubEvent.connection (Server.buildSocket evt.info)],
      cmds := [], cbs := [] }
  else noopResult s

/-- Embeds the close handler armed on each accepted socket
(lines 505 to 509): when the socket tracked by `tok` emits `close`,
delete it from the connection set, and if the Server is not listening and
the set is now empty, emit the aggregate `close` event. -/
def Server.socketClose (s : ServerState) (tok : Nat) : OpResult :=
  let s1 : ServerState := { s with connections := s.connections.erase tok }
  if s1.listening = false ∧ s1.connections = [] then
    { state := s1.emitClose.1, events := [PubEvent.close], cmds := [],
      cbs := s1.emitClose.2 }
  else
    { state := s1, events := [], cmds := [], cbs := [] }

/-- A Server with id 1 on which `listen({port: 12345})` was called and no
routed event has been processed yet. -/
def listenCalledServer : ServerState :=
  (Server.listen (ServerState.new 1)
    { port := 12345, host := none, reuseAddress := none }).state

/-- The routed listening event of the end-to-end scenario of the spec. -/
def scenarioListeningEvt : ListeningEvt :=
  { id := 1, connection :=
    { localAddress := "0.0.0.0", localPort := 12345, localFamily := "IPv4" } }

/-- The end-to-end scenario state: `listen` was called and the matching
routed listening event was processed. -/
def boundServer : ServerState :=
  (Server.handleListening listenCalledServer scenarioListeningEvt).state

/-- The scenario Server after additionally accepting one connection:
listening and with a non-empty connection set. -/
def serverWithConn : ServerState :=
  (Server.handleConnection boundServer
    { id := 1, info := { id := 7, connection :=
      { localAddress := "1.2.3.4", localPort := 9, localFamily := "IPv4" } } }).state

/-- Claim C1, counterexample: on a concrete Server that is listening and
has one open accepted socket, `destroy()` emits the public `close` event,
so `close` can fire while `listening` is true and the connection set is
non-empty, contrary to the claimed equivalence. -/
theorem C1_counterexample :
    serverWithConn.listening = true ∧
    serverWithConn.connections ≠ [] ∧
    (Server.destroy serverWithConn).events = [PubEvent.close] := by decide

/-- Claim C1 (amended): the socket-close path emits `close` exactly when
the Server is not listening and the connection set after the removal is
empty, so closing a Server with open accepted sockets defers `close`
until the last of them closes; `close()` itself and the three routed
handlers never emit `close`; `destroy()` however emits `close`
unconditionally, even while listening or with open connections. -/
theorem C1_close_iff (s : ServerState) (tok : Nat) :
    (PubEvent.close ∈ (Server.socketClose s tok).events ↔
      (s.listening = false ∧ s.connections.erase tok = [])) ∧
    ((Server.destroy s).events = [PubEvent.close]) ∧
    (∀ b, (Server.close s b).events = []) ∧
    (∀ evt, PubEvent.close ∉ (Server.handleListening s evt).events) ∧
    (∀ evt, PubEvent.close ∉ (Server.handleError s evt).events) ∧
    (∀ evt, PubEvent.close ∉ (Server.handleConnection s evt).events) := by
  refine ⟨?_, rfl, ?_, ?_, ?_, ?_⟩
  · simp only [Server.socketClose]
    split <;> simp_all
  · intro b
    unfold Server.close
    split <;> rfl
  · intro evt
    unfold Server.handleListening noopResult
    split <;> simp
  · intro evt
    unfold Server.handleError Server.close noopResult
    split
    · split <;> simp
    · simp
  · intro evt
    unfold Server.handleConnection noopResult
    split <;> simp

/-- Witness for `C1_close_iff` at a concrete input: a fresh Server is not
listening with an empty set, so a socket-close emits `close`; `destroy`
emits `close`; `close()` emits nothing. -/
theorem C1_close_iff_witness :
    PubEvent.close ∈ (Server.socketClose (ServerState.new 1) 0).events ∧
    (Server.destroy (ServerState.new 1)).events = [PubEvent.close] ∧
    (Server.close (ServerState.new 1) true).events = [] :=
  ⟨(C1_close_iff (ServerState.new 1) 0).1.mpr (by decide),
   (C1_close_iff (ServerState.new 1) 0).2.1,
   (C1_close_iff (ServerState.new 1) 0).2.2.1 true⟩

/-- Claim C2, counterexample: after `listen`, injecting a matching
routed listening event whose `localAddress` is the empty string sets
`listening` to true but leaves `address()` null rather than equal to the
event metadata, because the empty string is falsy in the `address()`
guard. -/
theorem C2_counterexample :
    (Server.handleListening listenCalledServer
      { id := 1, connection :=
        { localAddress := "", localPort := 12345, localFamily := "IPv4" } }).state.listening
      = true ∧
    Server.address (Server.handleListening listenCalledServer
      { id := 1, connection :=
        { localAddress := "", localPort := 12345, localFamily := "IPv4" } }).state
      = none := by decide

/-- Claim C2 (amended): for a Server on which `listen` was called (at
least one armed `once("listening")` handler), processing a matching
routed listening event whose `localAddress` is non-empty populates the
bound-address metadata from the event, sets `listening` to true, emits
the public `listening` event, and `address()` then returns exactly the
address, port and family of the event. -/
theorem C2_listening_event (s : ServerState) (evt : ListeningEvt)
    (hid : evt.id = s.id) (hpend : 1 ≤ s.pendingListenCbs)
    (haddr : evt.connection.localAddress ≠ "") :
    (Server.handleListening s evt).state.listening = true ∧
    Server.address (Server.handleListening s evt).state =
      some { address := evt.connection.localAddress,
             port := evt.connection.localPort,
             family := evt.connection.localFamily } ∧
    (Server.handleListening s evt).events = [PubEvent.listening] := by
  have hne : s.pendingListenCbs ≠ 0 := Nat.one_le_iff_ne_zero.mp hpend
  unfold Server.handleListening
  rw [if_pos hid]
  refine ⟨by simp [hne], ?_, rfl⟩
  simp [Server.address, haddr]

/-- Witness for `C2_listening_event` at the end-to-end scenario input of
the spec: `listen({port: 12345})` followed by the routed listening event
with localAddress 0.0.0.0, localPort 12345, localFamily IPv4. -/
theorem C2_listening_event_witness :
    scenarioListeningEvt.id = listenCalledServer.id ∧
    1 ≤ listenCalledServer.pendingListenCbs ∧
    scenarioListeningEvt.connection.localAddress ≠ "" ∧
    ((Server.handleListening listenCalledServer scenarioListeningEvt).state.listening = true ∧
     Server.address (Server.handleListening listenCalledServer scenarioListeningEvt).state =
       some { address := scenarioListeningEvt.connection.localAddress,
              port := scenarioListeningEvt.connection.localPort,
              family := scenarioListeningEvt.connection.localFamily } ∧
     (Server.handleListening listenCalledServer scenarioListeningEvt).events =
       [PubEvent.listening]) :=
  ⟨by decide, by decide, by decide,
   C2_listening_event listenCalledServer scenarioListeningEvt
     (by decide) (by decide) (by decide)⟩

/-- The second `listen` call, made before any routed listening event has
been processed. -/
def secondListen : ListenResult :=
  Server.listen listenCalledServer
    { port := 12346, host := none, reuseAddress := none }

/-- Claim C3: evaluation of the code at the failing input. The first
`listen` call does not throw, and a second `listen` call made before the
routed listening event for the first has been processed also does not
throw and issues a second native listen command, because the guard tests
the bound-address metadata, which is still undefined at that point. This
contradicts the doc comment of `Server.listen` in the source, which says
a second call must throw ERR_SERVER_ALREADY_LISTEN unless the first call
failed or `close()` was called. -/
theorem C3_second_listen_not_rejected :
    (Server.listen (ServerState.new 1)
      { port := 12345, host := none, reuseAddress := none }).thrown = none ∧
    secondListen.thrown = none ∧
    secondListen.cmds = [NativeCmd.listenCmd 1
      { port := 12346, host := some "0.0.0.0", reuseAddress := none }] := by decide

/-- Claim C4: `close(callback)` on a Server that never bound an address
invokes the callback synchronously with ERR_SERVER_NOT_RUNNING, issues no
native command, emits no event and leaves the state unchanged. -/
theorem C4_close_not_running (s : ServerState) (h : s.localAddress = none) :
    Server.close s true =
      { state := s, events := [], cmds := [],
        cbs := [CbCall.closeCb (some "ERR_SERVER_NOT_RUNNING")] } := by
  simp [Server.close, h, strTruthy]

/-- Witness for `C4_close_not_running` on a freshly constructed Server. -/
theorem C4_close_not_running_witness :
    (ServerState.new 1).localAddress = none ∧
    Server.close (ServerState.new 1) true =
      { state := ServerState.new 1, events := [], cmds := [],
        cbs := [CbCall.closeCb (some "ERR_SERVER_NOT_RUNNING")] } :=
  ⟨rfl, C4_close_not_running (ServerState.new 1) rfl⟩

/-- The scenario Server after `close()` while the metadata is still
bound: not listening but with the address metadata still present. -/
def closedScenarioServer : ServerState := (Server.close boundServer true).state

/-- Claim C5, counterexample: after `close()` on the bound scenario
Server the listening flag is false while `address()` still returns the
bound metadata, because the metadata is only cleared when the public
`close` event fires, so the claimed equivalence fails. -/
theorem C5_counterexample :
    closedScenarioServer.listening = false ∧
    Server.address closedScenarioServer =
      some { address := "0.0.0.0", port := 12345, family := "IPv4" } := by decide

/-- Claim C5 (amended): the bound-address metadata is made present by a
matching routed listening event and is cleared exactly when a public
`close` event is emitted; `close()` sets `listening` to false but leaves
the metadata present, and `destroy()` clears the metadata but leaves the
`listening` flag unchanged, so neither direction of the claimed
equivalence between metadata presence and the listening flag holds in
every reachable state. -/
theorem C5_metadata_lifecycle (s : ServerState) (evt : ListeningEvt)
    (tok : Nat) (b : Bool) :
    (evt.id = s.id →
      (Server.handleListening s evt).state.localAddress =
        some evt.connection.localAddress) ∧
    (strTruthy s.localAddress = true →
      (Server.close s b).state.localAddress = s.localAddress ∧
      (Server.close s b).state.listening = false) ∧
    ((Server.destroy s).state.localAddress = none ∧
     (Server.destroy s).state.listening = s.listening) ∧
    (PubEvent.close ∈ (Server.socketClose s tok).events →
      (Server.socketClose s tok).state.localAddress = none) ∧
    (PubEvent.close ∉ (Server.socketClose s tok).events →
      (Server.socketClose s tok).state.localAddress = s.localAddress) := by
  refine ⟨?_, ?_, ⟨rfl, rfl⟩, ?_, ?_⟩
  · intro hid
    simp [Server.handleListening, hid]
  · intro htr
    unfold Server.close
    rw [htr]
    simp
  · simp only [Server.socketClose]
    split <;> simp [ServerState.emitClose]
  · simp only [Server.socketClose]
    split <;> simp

/-- Witness for `C5_metadata_lifecycle` at the bound scenario Server. -/
theorem C5_metadata_lifecycle_witness :
    ((Server.handleListening boundServer scenarioListeningEvt).state.localAddress =
      some scenarioListeningEvt.connection.localAddress) ∧
    ((Server.close boundServer true).state.localAddress = boundServer.localAddress ∧
     (Server.close boundServer true).state.listening = false) ∧
    ((Server.destroy boundServer).state.localAddress = none ∧
     (Server.destroy boundServer).state.listening = boundServer.listening) ∧
    ((Server.socketClose boundServer 0).state.localAddress = boundServer.localAddress) :=
  ⟨(C5_metadata_lifecycle boundServer scenarioListeningEvt 0 true).1 (by decide),
   (C5_metadata_lifecycle boundServer scenarioListeningEvt 0 true).2.1 (by decide),
   (C5_metadata_lifecycle boundServer scenarioListeningEvt 0 true).2.2.1,
   (C5_metadata_lifecycle boundServer scenarioListeningEvt 0 true).2.2.2.2 (by decide)⟩

/-- A concrete routed connection event for the scenario Server. -/
def scenarioConnectionEvt : ConnectionEvt :=
  { id := 1, info := { id := 7, connection :=
    { localAddress := "1.2.3.4", localPort := 9, localFamily := "IPv4" } } }

/-- Claim C6, counterexample: the Socket emitted with the public
`connection` event carries none of the connection info of the event (its
id and connection metadata are unset), because the `_setId` and
`_setConnected` calls in `_buildSocket` are commented out in the
source. -/
theorem C6_counterexample :
    (Server.handleConnection boundServer scenarioConnectionEvt).events =
      [PubEvent.connection { sockId := none, connInfo := none }] ∧
    ({ sockId := none, connInfo := none } : SocketModel) ≠
      { sockId := some scenarioConnectionEvt.info.id,
        connInfo := some scenarioConnectionEvt.info.connection } := by decide

/-- Claim C6 (amended): a matching routed connection event constructs a
new, unconfigured Socket (the connection info of the event is not applied
to it), arms a close handler whose firing removes the socket from the
connection set, grows the connection set by exactly one, and emits the
public `connection` event carrying that Socket. -/
theorem C6_connection_event (s : ServerState) (evt : ConnectionEvt)
    (hid : evt.id = s.id) :
    (Server.handleConnection s evt).state.connections =
      s.connections ++ [s.nextSocketToken] ∧
    (Server.handleConnection s evt).state.connections.length =
      s.connections.length + 1 ∧
    (Server.handleConnection s evt).events =
      [PubEvent.connection SocketModel.new] ∧
    SocketModel.new.sockId = none ∧ SocketModel.new.connInfo = none ∧
    (Server.socketClose (Server.handleConnection s evt).state
      s.nextSocketToken).state.connections.length = s.connections.length := by
  refine ⟨?_, ?_, ?_, rfl, rfl, ?_⟩
  · simp [Server.handleConnection, hid]
  · simp [Server.handleConnection, hid]
  · simp [Server.handleConnection, Server.buildSocket, hid]
  · have hmem : s.nextSocketToken ∈ s.connections ++ [s.nextSocketToken] := by simp
    have herase : ((s.connections ++ [s.nextSocketToken]).erase
        s.nextSocketToken).length = s.connections.length := by
      rw [List.length_erase_of_mem hmem]
      simp
    simp only [Server.handleConnection, Server.socketClose, hid, if_pos]
    split <;> exact herase

/-- Witness for `C6_connection_event` at the bound scenario Server and a
concrete routed connection event. -/
theorem C6_connection_event_witness :
    ((Server.handleConnection boundServer scenarioConnectionEvt).state.connections =
      boundServer.connections ++ [boundServer.nextSocketToken] ∧
    (Server.handleConnection boundServer scenarioConnectionEvt).state.connections.length =
      boundServer.connections.length + 1 ∧
    (Server.handleConnection boundServer scenarioConnectionEvt).events =
      [PubEvent.connection SocketModel.new] ∧
    SocketModel.new.sockId = none ∧ SocketModel.new.connInfo = none ∧
    (Server.socketClose (Server.handleConnection boundServer scenarioConnectionEvt).state
      boundServer.nextSocketToken).state.connections.length =
        boundServer.connections.length) :=
  C6_connection_event boundServer scenarioConnectionEvt (by decide)

/-- Claim C7: a matching routed error event emits the public `error`
event carrying the error of the event and performs the best-effort close
as part of handling it: on a Server with bound metadata the listening
flag is cleared and the native close command is issued; on a Server with
no bound metadata the close call is a no-op; no callback fires. -/
theorem C7_error_event (s : ServerState) (evt : ErrorEvt)
    (hid : evt.id = s.id) :
    (Server.handleError s evt).events = [PubEvent.errorEv evt.error] ∧
    (Server.handleError s evt).cbs = [] ∧
    (strTruthy s.localAddress = true →
      (Server.handleError s evt).state.listening = false ∧
      (Server.handleError s evt).cmds = [NativeCmd.closeCmd s.id]) ∧
    (strTruthy s.localAddress = false →
      (Server.handleError s evt).state = s ∧
      (Server.handleError s evt).cmds = []) := by
  unfold Server.handleError Server.close
  rw [if_pos hid]
  by_cases htr : strTruthy s.localAddress = false
  · rw [if_pos htr]
    refine ⟨rfl, rfl, ?_, fun _ => ⟨rfl, rfl⟩⟩
    intro habs
    rw [habs] at htr
    exact absurd htr (by simp)
  · rw [if_neg htr]
    refine ⟨rfl, rfl, fun _ => ⟨rfl, rfl⟩, ?_⟩
    intro habs
    exact absurd habs htr

/-- Witness for `C7_error_event` at the bound scenario Server. -/
theorem C7_error_event_witness :
    ((Server.handleError boundServer { id := 1, error := "boom" }).events =
      [PubEvent.errorEv "boom"] ∧
    (Server.handleError boundServer { id := 1, error := "boom" }).cbs = [] ∧
    ((Server.handleError boundServer { id := 1, error := "boom" }).state.listening = false ∧
     (Server.handleError boundServer { id := 1, error := "boom" }).cmds =
       [NativeCmd.closeCmd boundServer.id])) :=
  ⟨(C7_error_event boundServer { id := 1, error := "boom" } (by decide)).1,
   (C7_error_event boundServer { id := 1, error := "boom" } (by decide)).2.1,
   (C7_error_event boundServer { id := 1, error := "boom" } (by decide)).2.2.1 (by decide)⟩

/-- Claim C8: `getConnections` invokes the callback exactly once,
synchronously, with a null error and the current size of the connection
set, changes no state, issues no native command and emits no event. -/
theorem C8_getConnections (s : ServerState) :
    Server.getConnections s =
      { state := s, events := [], cmds := [],
        cbs := [CbCall.getConnectionsCb none s.connections.length] } := rfl

/-- Claim C9: a routed event whose embedded id differs from the id of
the Server leaves every field of the Server unchanged and produces no
public event, no native command and no callback invocation, for all
three routed event kinds. -/
theorem C9_id_mismatch (s : ServerState)
    (evtL : ListeningEvt) (evtE : ErrorEvt) (evtC : ConnectionEvt)
    (hL : evtL.id ≠ s.id) (hE : evtE.id ≠ s.id) (hC : evtC.id ≠ s.id) :
    Server.handleListening s evtL = noopResult s ∧
    Server.handleError s evtE = noopResult s ∧
    Server.handleConnection s evtC = noopResult s := by
  refine ⟨?_, ?_, ?_⟩
  · unfold Server.handleListening
    rw [if_neg hL]
  · unfold Server.handleError
    rw [if_neg hE]
  · unfold Server.handleConnection
    rw [if_neg hC]

/-- Witness for `C9_id_mismatch`: events tagged with id 2 do not touch a
Server with id 1. -/
theorem C9_id_mismatch_witness :
    (Server.handleListening (ServerState.new 1)
      { id := 2, connection :=
        { localAddress := "0.0.0.0", localPort := 1, localFamily := "IPv4" } } =
      noopResult (ServerState.new 1) ∧
    Server.handleError (ServerState.new 1) { id := 2, error := "boom" } =
      noopResult (ServerState.new 1) ∧
    Server.handleConnection (ServerState.new 1)
      { id := 2, info := { id := 7, connection :=
        { localAddress := "1.2.3.4", localPort := 9, localFamily := "IPv4" } } } =
      noopResult (ServerState.new 1)) :=
  C9_id_mismatch (ServerState.new 1)
    { id := 2, connection :=
      { localAddress := "0.0.0.0", localPort := 1, localFamily := "IPv4" } }
    { id := 2, error := "boom" }
    { id := 2, info := { id := 7, connection :=
      { localAddress := "1.2.3.4", localPort := 9, localFamily := "IPv4" } } }
    (by decide) (by decide) (by decide)

/-- Claim C10: `listen` never mutates the caller-supplied options
object: the host default is applied only to the internal spread copy that
is sent with the native listen command, so after the call the options of
the caller, including an absent host, are exactly as supplied. -/
theorem C10_listen_options_unchanged (s : ServerState) (opts : ListenOptions) :
    (Server.listen s opts).optionsAfter = opts ∧
    (Server.listen s opts).cmds =
      (if s.localAddress ≠ none then []
       else [NativeCmd.listenCmd s.id
         { opts with host := some (jsOrDefault opts.host "0.0.0.0") }]) := by
  unfold Server.listen
  split
  · next h => simp [h]
  · next h => simp [h]
